import Mathlib

/-
Shallow embedding of src/main.py (GitLab Job Manager API): a FastAPI service
that loads job records from a local JSON file and relays commit operations to
the GitLab repository-files API. The remote API is modelled as a deterministic
function from requests to responses; every function that talks to the remote
also returns the list of requests it issued, in order, so that "performs an
update call, never a create call" style properties can be stated.
-/

namespace GitLabJobManager

/-- Single-quote character, used to build the error-detail strings of main.py. -/
def sq : String := String.singleton (Char.ofNat 39)

/-- Uppercase hexadecimal digit, as produced by urllib.parse.quote. -/
def hexDigit (n : Nat) : Char :=
  if n < 10 then Char.ofNat (48 + n) else Char.ofNat (55 + n)

/-- Lowercase hexadecimal digit, as produced by json.dumps in \u escapes. -/
def hexDigitLower (n : Nat) : Char :=
  if n < 10 then Char.ofNat (48 + n) else Char.ofNat (87 + n)

/-- UTF-8 encoding of one character, each byte as a Nat below 256. -/
def utf8Bytes (c : Char) : List Nat :=
  let n := c.toNat
  if n < 128 then [n]
  else if n < 2048 then [192 + n / 64, 128 + n % 64]
  else if n < 65536 then [224 + n / 4096, 128 + (n / 64) % 64, 128 + n % 64]
  else [240 + n / 262144, 128 + (n / 4096) % 64, 128 + (n / 64) % 64, 128 + n % 64]

/-- Bytes that urllib.parse.quote leaves unescaped when safe is the empty
string: ASCII letters, digits, hyphen, period, underscore, tilde. -/
def isUnreservedByte (b : Nat) : Bool :=
  (65 ≤ b && b ≤ 90) || (97 ≤ b && b ≤ 122) || (48 ≤ b && b ≤ 57) ||
    b == 45 || b == 46 || b == 95 || b == 126

/-- Percent-encoding of one byte, uppercase hex, as urllib.parse.quote does. -/
def quoteByte (b : Nat) : String :=
  if isUnreservedByte b then String.singleton (Char.ofNat b)
  else "%" ++ String.singleton (hexDigit (b / 16 % 16)) ++ String.singleton (hexDigit (b % 16))

/-- Embedding of urllib.parse.quote(s, safe equal to the empty string):
percent-encode every UTF-8 byte outside the unreserved set. -/
def quote (s : String) : String :=
  String.join (s.data.map (fun c => String.join ((utf8Bytes c).map quoteByte)))

/-- Four lowercase hex digits of a value below 65536. -/
def hex4 (n : Nat) : String :=
  String.singleton (hexDigitLower (n / 4096 % 16)) ++
    String.singleton (hexDigitLower (n / 256 % 16)) ++
    String.singleton (hexDigitLower (n / 16 % 16)) ++
    String.singleton (hexDigitLower (n % 16))

/-- Escaping of one character inside a JSON string literal, as json.dumps does
with its default ensure ASCII behaviour: characters outside 0x20..0x7E are
escaped, astral characters as a surrogate pair. -/
def jsonEscapeChar (c : Char) : String :=
  let n := c.toNat
  if n = 34 then "\\\""
  else if n = 92 then "\\\\"
  else if n = 10 then "\\n"
  else if n = 13 then "\\r"
  else if n = 9 then "\\t"
  else if n = 8 then "\\b"
  else if n = 12 then "\\f"
  else if n < 32 then "\\u" ++ hex4 n
  else if n < 127 then String.singleton c
  else if n < 65536 then "\\u" ++ hex4 n
  else "\\u" ++ hex4 (55296 + (n - 65536) / 1024) ++ "\\u" ++ hex4 (56320 + (n - 65536) % 1024)

/-- Embedding of json.dumps on a Python string. -/
def jsonDumpStr (s : String) : String :=
  "\"" ++ String.join (s.data.map jsonEscapeChar) ++ "\""

/-- Embedding of json.dumps(payload) for the dict built in push_to_gitlab, keys
in insertion order with the default separators. -/
def dumpsPayload (content commit_message : String) : String :=
  "\x7b\"branch\": \"main\", \"content\": " ++ jsonDumpStr content ++
    ", \"commit_message\": " ++ jsonDumpStr commit_message ++ "\x7d"

/-- The environment-derived configuration of main.py: GITLAB_TOKEN,
GITLAB_PROJECT_ID, GITLAB_PROJECT_PATH and GITLAB_BASE_URL. The startup check
has already passed, so all fields are present. -/
structure Config where
  GITLAB_TOKEN : String
  PROJECT_ID : String
  PROJECT_PATH : String
  BASE_API_URL : String
deriving DecidableEq, Repr

/-- BASE_URL of main.py, the repository-files endpoint of the project. -/
def BASE_URL (cfg : Config) : String :=
  cfg.BASE_API_URL ++ "/projects/" ++ cfg.PROJECT_ID ++ "/repository/files"

/-- HTTP methods used by main.py against the remote API. -/
inductive Method where
  | get
  | post
  | put
deriving DecidableEq, Repr

/-- A request to the remote API. The HEADERS dict is the same constant on
every call and is omitted. -/
structure Request where
  method : Method
  url : String
  body : Option String
deriving DecidableEq, Repr

/-- A response from the remote API, as main.py uses it. -/
structure Response where
  status_code : Nat
  text : String
deriving DecidableEq, Repr

/-- The remote GitLab API, modelled as a deterministic function from request
to response. -/
def Remote : Type := Request → Response

/-- Outcome of a Python call: a normal return, a raised HTTPException with a
status code and detail, or an uncaught Python exception. -/
inductive PyResult (α : Type) where
  | ok : α → PyResult α
  | httpError : Nat → String → PyResult α
  | pyError : String → PyResult α
deriving DecidableEq, Repr

/-- A job record, a Python dict with string keys and string values. -/
abbrev Job := List (String × String)

/-- Embedding of Python dict.get on a string-valued dict: first binding wins
(dict keys are unique, so at most one binding exists per key). -/
def dictGet (d : Job) (k : String) : Option String :=
  match d with
  | [] => none
  | (k2, v) :: rest => if k2 = k then some v else dictGet rest k

/-- Whether a string-valued dict binds the key. -/
def dictHasKey (d : Job) (k : String) : Bool :=
  match d with
  | [] => false
  | (k2, _) :: rest => if k2 = k then true else dictHasKey rest k

/-- Embedding of Python dict item assignment: replace the binding of the key
if present, otherwise append it at the end (dict insertion order). -/
def dictSet (d : Job) (k v : String) : Job :=
  if dictHasKey d k then
    d.map (fun kv => if kv.1 = k then (k, v) else kv)
  else d ++ [(k, v)]

/-- JSON values, the possible results of json.load. -/
inductive Json where
  | null : Json
  | bool : Bool → Json
  | num : Int → Json
  | str : String → Json
  | arr : List Json → Json
  | obj : List (String × Json) → Json

/-- Lookup in a parsed JSON object (a Python dict, keys unique). -/
def objGet : List (String × Json) → String → Option Json
  | [], _ => none
  | (k2, v) :: rest, k => if k2 = k then some v else objGet rest k

/-- Python type name of a parsed JSON value, as it appears in the
AttributeError message when .get is called on a non-dict. -/
def pyTypeName : Json → String
  | Json.null => "NoneType"
  | Json.bool _ => "bool"
  | Json.num _ => "int"
  | Json.str _ => "str"
  | Json.arr _ => "list"
  | Json.obj _ => "dict"

/-- Embedding of load_jobs. The file read and json.load are modelled by the
parameter: Except.error e when opening or parsing raises with message e,
Except.ok data when json.load returns data. data.get succeeds only on a dict;
on any other value Python raises AttributeError, which the same except clause
turns into the 500 HTTPException. -/
def load_jobs (file : Except String Json) : PyResult Json :=
  match file with
  | Except.error e => PyResult.httpError 500 ("Error loading jobs: " ++ e)
  | Except.ok data =>
    match data with
    | Json.obj fields => PyResult.ok ((objGet fields "jobs").getD (Json.arr []))
    | _ =>
      PyResult.httpError 500 ("Error loading jobs: " ++ sq ++ pyTypeName data ++ sq ++
        " object has no attribute " ++ sq ++ "get" ++ sq)

/-- The GET /jobs route: returns load_jobs() on the current backing file. -/
def list_jobs (file : Except String Json) : PyResult Json :=
  load_jobs file

/-- The computed raw-file URL set on a returned job record. -/
def file_raw_url (cfg : Config) (script_path : String) : String :=
  cfg.BASE_API_URL ++ "/projects/" ++ quote cfg.PROJECT_PATH ++ "/repository/files/" ++
    quote script_path ++ "/raw?ref=main"

/-- The body of the matching branch of get_job_by_id: encode script_path
(KeyError if absent) and set file_raw_url on the record. -/
def addRawUrl (cfg : Config) (job : Job) : PyResult Job :=
  match dictGet job "script_path" with
  | none => PyResult.pyError "KeyError: script_path"
  | some sp => PyResult.ok (dictSet job "file_raw_url" (file_raw_url cfg sp))

/-- Embedding of get_job_by_id: scan the loaded jobs in file order, return the
first record whose job_id field equals the argument, augmented with the raw
URL; 404 when no record matches. The jobs list loaded from the backing file is
a parameter (the file read is ambient). -/
def get_job_by_id (cfg : Config) (jobs : List Job) (job_id : String) : PyResult Job :=
  match jobs with
  | [] => PyResult.httpError 404 ("Job " ++ sq ++ job_id ++ sq ++ " not found")
  | job :: rest =>
    if dictGet job "job_id" = some job_id then addRawUrl cfg job
    else get_job_by_id cfg rest job_id

/-- The existence-probe request issued by file_exists. -/
def probeRequest (cfg : Config) (file_path branch : String) : Request :=
  ⟨Method.get, BASE_URL cfg ++ "/" ++ quote file_path ++ "?ref=" ++ branch, none⟩

/-- Embedding of file_exists: issue the GET probe and report whether the
status code is 200. Also returns the list of requests issued. -/
def file_exists (remote : Remote) (cfg : Config) (file_path branch : String) :
    Bool × List Request :=
  let req := probeRequest cfg file_path branch
  ((remote req).status_code == 200, [req])

/-- The create/update request issued by push_to_gitlab, for a given method. -/
def writeRequest (cfg : Config) (file_path content commit_message : String)
    (m : Method) : Request :=
  ⟨m, BASE_URL cfg ++ "/" ++ quote file_path,
    some (dumpsPayload content commit_message)⟩

/-- The normalized commit result dict returned by push_to_gitlab. -/
structure CommitResult where
  status : String
  action : String
  file_path : String
deriving DecidableEq, Repr

/-- Embedding of push_to_gitlab: probe existence at branch main, then PUT
(update) if the probe reported 200, else POST (create); raise the remote
status and body when the write status is not in [200, 201], else return the
normalized result. Also returns the list of requests issued, in order. -/
def push_to_gitlab (remote : Remote) (cfg : Config)
    (file_path content commit_message : String) : PyResult CommitResult × List Request :=
  let (ex, probes) := file_exists remote cfg file_path "main"
  let (req, action) :=
    if ex then (writeRequest cfg file_path content commit_message Method.put, "updated")
    else (writeRequest cfg file_path content commit_message Method.post, "created")
  let response := remote req
  let trace := probes ++ [req]
  if ([200, 201].contains response.status_code) = false then
    (PyResult.httpError response.status_code response.text, trace)
  else
    (PyResult.ok ⟨"success", action, file_path⟩, trace)

/-- Detail string of the 400 raised when the commit body has no content. -/
def missingContentDetail : String :=
  "Missing " ++ sq ++ "content" ++ sq ++ " in request body"

/-- Embedding of the POST /jobs/job_id/commit route: resolve the job (404 if
unknown), reject a missing or falsy content field with 400, then push to
GitLab and shape the response dict. An HTTPException raised by a callee
propagates. Also returns the list of remote requests issued. -/
def commit_job (remote : Remote) (cfg : Config) (jobs : List Job) (job_id : String)
    (payload : Job) : PyResult Job × List Request :=
  match get_job_by_id cfg jobs job_id with
  | PyResult.httpError s d => (PyResult.httpError s d, [])
  | PyResult.pyError m => (PyResult.pyError m, [])
  | PyResult.ok job =>
    match dictGet payload "content" with
    | none => (PyResult.httpError 400 missingContentDetail, [])
    | some content =>
      if content = "" then (PyResult.httpError 400 missingContentDetail, [])
      else
        match dictGet job "script_name" with
        | none => (PyResult.pyError "KeyError: script_name", [])
        | some script_name =>
          let commit_message :=
            (dictGet payload "commit_message").getD ("Commit job logs for " ++ script_name)
          let file_path_in_gitlab := "sas/optimized/" ++ script_name
          match push_to_gitlab remote cfg file_path_in_gitlab content commit_message with
          | (PyResult.httpError s d, trace) => (PyResult.httpError s d, trace)
          | (PyResult.pyError m, trace) => (PyResult.pyError m, trace)
          | (PyResult.ok r, trace) =>
            match dictGet job "job_id" with
            | none => (PyResult.pyError "KeyError: job_id", trace)
            | some jid =>
              (PyResult.ok [("job_id", jid), ("file_path", r.file_path),
                ("action", r.action), ("status", "✅ success")], trace)

/-- Whether the existence probe at branch main reported 200 for this path. -/
def probeOk (remote : Remote) (cfg : Config) (file_path : String) : Bool :=
  (remote (probeRequest cfg file_path "main")).status_code == 200

/-- The create-or-update request that push_to_gitlab actually issues: PUT when
the probe reported the path as existing, POST otherwise. -/
def theWriteRequest (remote : Remote) (cfg : Config)
    (file_path content commit_message : String) : Request :=
  writeRequest cfg file_path content commit_message
    (if probeOk remote cfg file_path then Method.put else Method.post)

/-- A concrete configuration used to instantiate the theorems. -/
def cfgW : Config := ⟨"tok", "42", "group/proj", "https://gitlab.example/api/v4"⟩

/-- The example job record of the specification. -/
def jobRecW : Job :=
  [("job_id", "a1"), ("script_name", "x.sas"), ("script_path", "scripts/x.sas")]

/-- A second record with the same job_id but a different script. -/
def jobRecW2 : Job :=
  [("job_id", "a1"), ("script_name", "y.sas"), ("script_path", "scripts/y.sas")]

/-- A one-record backing file content. -/
def jobsW : List Job := [jobRecW]

/-- The example record as returned by get_job_by_id, raw URL attached. -/
def jobOutW : Job := jobRecW ++ [("file_raw_url", file_raw_url cfgW "scripts/x.sas")]

/-- A remote on which every request, the probe included, returns 200. -/
def remoteAllOk : Remote := fun _ => ⟨200, "ok"⟩

/-- A remote on which the probe reports not-found and writes succeed. -/
def remoteAbsentThenCreated : Remote := fun req =>
  if req.method = Method.get then ⟨404, "not found"⟩ else ⟨201, "created"⟩

/-- A remote on which the probe reports not-found and writes are denied. -/
def remoteAbsentThenDenied : Remote := fun req =>
  if req.method = Method.get then ⟨404, "not found"⟩ else ⟨403, "forbidden"⟩

/-
Helper lemmas on the dict model.
-/

theorem dictGet_map_replace (d : Job) (k v : String) (h : dictHasKey d k = true) :
    dictGet (d.map (fun kv => if kv.1 = k then (k, v) else kv)) k = some v := by
  induction d with
  | nil => cases h
  | cons kv rest ih =>
    obtain ⟨k2, v2⟩ := kv
    dsimp only [List.map_cons]
    by_cases hk : k2 = k
    · rw [if_pos hk]
      simp [dictGet]
    · rw [if_neg hk]
      have h2 : dictHasKey rest k = true := by
        simpa [dictHasKey, hk] using h
      simp only [dictGet]
      rw [if_neg hk]
      exact ih h2

theorem dictGet_append_single (d : Job) (k v : String) (h : dictHasKey d k = false) :
    dictGet (d ++ [(k, v)]) k = some v := by
  induction d with
  | nil => simp [dictGet]
  | cons kv rest ih =>
    obtain ⟨k2, v2⟩ := kv
    by_cases hk : k2 = k
    · simp [dictHasKey, hk] at h
    · have h2 : dictHasKey rest k = false := by simpa [dictHasKey, hk] using h
      rw [List.cons_append]
      simp only [dictGet]
      rw [if_neg hk]
      exact ih h2

theorem dictGet_dictSet_self (d : Job) (k v : String) :
    dictGet (dictSet d k v) k = some v := by
  rcases hb : dictHasKey d k with _ | _
  · simp only [dictSet, hb, Bool.false_eq_true, if_false]
    exact dictGet_append_single d k v hb
  · simp only [dictSet, hb, if_true]
    exact dictGet_map_replace d k v hb

theorem dictGet_map_replace_other (d : Job) (k k2 v : String) (h : k2 ≠ k) :
    dictGet (d.map (fun kv => if kv.1 = k then (k, v) else kv)) k2 = dictGet d k2 := by
  induction d with
  | nil => rfl
  | cons kv rest ih =>
    obtain ⟨k3, v3⟩ := kv
    dsimp only [List.map_cons]
    by_cases hk : k3 = k
    · have hk2 : ¬ k = k2 := fun hh => h hh.symm
      have hk3 : ¬ k3 = k2 := fun hh => h (hh ▸ hk)
      rw [if_pos hk]
      simp only [dictGet]
      rw [if_neg hk2, if_neg hk3]
      exact ih
    · rw [if_neg hk]
      simp only [dictGet]
      by_cases hk3 : k3 = k2
      · rw [if_pos hk3, if_pos hk3]
      · rw [if_neg hk3, if_neg hk3]
        exact ih

theorem dictGet_append_single_other (d : Job) (k k2 v : String) (h : k2 ≠ k) :
    dictGet (d ++ [(k, v)]) k2 = dictGet d k2 := by
  induction d with
  | nil =>
    have hk2 : ¬ k = k2 := fun hh => h hh.symm
    simp [dictGet, hk2]
  | cons kv rest ih =>
    obtain ⟨k3, v3⟩ := kv
    rw [List.cons_append]
    simp only [dictGet]
    by_cases hk : k3 = k2
    · rw [if_pos hk, if_pos hk]
    · rw [if_neg hk, if_neg hk]
      exact ih

theorem dictGet_dictSet_other (d : Job) (k k2 v : String) (h : k2 ≠ k) :
    dictGet (dictSet d k v) k2 = dictGet d k2 := by
  rcases hb : dictHasKey d k with _ | _
  · simp only [dictSet, hb, Bool.false_eq_true, if_false]
    exact dictGet_append_single_other d k k2 v h
  · simp only [dictSet, hb, if_true]
    exact dictGet_map_replace_other d k k2 v h

/-- Characterization of push_to_gitlab in terms of the probe outcome and the
single write request it issues. -/
theorem push_to_gitlab_unfold (remote : Remote) (cfg : Config)
    (fp content msg : String) :
    push_to_gitlab remote cfg fp content msg =
      if ([200, 201].contains
            (remote (theWriteRequest remote cfg fp content msg)).status_code) = false
      then (PyResult.httpError
              (remote (theWriteRequest remote cfg fp content msg)).status_code
              (remote (theWriteRequest remote cfg fp content msg)).text,
            [probeRequest cfg fp "main", theWriteRequest remote cfg fp content msg])
      else (PyResult.ok
              ⟨"success", if probeOk remote cfg fp then "updated" else "created", fp⟩,
            [probeRequest cfg fp "main", theWriteRequest remote cfg fp content msg]) := by
  cases h : (remote (probeRequest cfg fp "main")).status_code == 200 <;>
    simp [push_to_gitlab, file_exists, theWriteRequest, probeOk, h]

/-- The trace of push_to_gitlab: always the probe followed by the one write. -/
theorem push_to_gitlab_trace (remote : Remote) (cfg : Config)
    (fp content msg : String) :
    (push_to_gitlab remote cfg fp content msg).2 =
      [probeRequest cfg fp "main", theWriteRequest remote cfg fp content msg] := by
  rw [push_to_gitlab_unfold]
  split <;> rfl

/-- The result of push_to_gitlab when the write status is a success. -/
theorem push_to_gitlab_result_ok (remote : Remote) (cfg : Config)
    (fp content msg : String)
    (h : ([200, 201].contains
        (remote (theWriteRequest remote cfg fp content msg)).status_code) = true) :
    (push_to_gitlab remote cfg fp content msg).1 =
      PyResult.ok
        ⟨"success", if probeOk remote cfg fp then "updated" else "created", fp⟩ := by
  rw [push_to_gitlab_unfold, if_neg (by rw [h]; decide)]

/-- The result of push_to_gitlab when the write status is not a success. -/
theorem push_to_gitlab_result_err (remote : Remote) (cfg : Config)
    (fp content msg : String)
    (h : ([200, 201].contains
        (remote (theWriteRequest remote cfg fp content msg)).status_code) = false) :
    (push_to_gitlab remote cfg fp content msg).1 =
      PyResult.httpError
        (remote (theWriteRequest remote cfg fp content msg)).status_code
        (remote (theWriteRequest remote cfg fp content msg)).text := by
  rw [push_to_gitlab_unfold, if_pos h]

/-- C1: on every commit call the existence probe is the first remote request,
and its outcome decides the write: a probe status of 200 yields the probe
followed by exactly one update (PUT) call and no create (POST) call, while
any other probe status yields the probe followed by exactly one create call
and no update call. -/
theorem commit_probe_decides_action (remote : Remote) (cfg : Config)
    (fp content msg : String) :
    ((push_to_gitlab remote cfg fp content msg).2.head? =
        some (probeRequest cfg fp "main")) ∧
    ((remote (probeRequest cfg fp "main")).status_code = 200 →
      (push_to_gitlab remote cfg fp content msg).2 =
          [probeRequest cfg fp "main", writeRequest cfg fp content msg Method.put] ∧
        ∀ r ∈ (push_to_gitlab remote cfg fp content msg).2, r.method ≠ Method.post) ∧
    ((remote (probeRequest cfg fp "main")).status_code ≠ 200 →
      (push_to_gitlab remote cfg fp content msg).2 =
          [probeRequest cfg fp "main", writeRequest cfg fp content msg Method.post] ∧
        ∀ r ∈ (push_to_gitlab remote cfg fp content msg).2, r.method ≠ Method.put) := by
  have ht := push_to_gitlab_trace remote cfg fp content msg
  refine ⟨by rw [ht]; rfl, fun h => ?_, fun h => ?_⟩
  · have hw : theWriteRequest remote cfg fp content msg =
        writeRequest cfg fp content msg Method.put := by
      simp [theWriteRequest, probeOk, h]
    rw [ht, hw]
    refine ⟨rfl, ?_⟩
    intro r hr
    rcases List.mem_cons.mp hr with rfl | hr2
    · exact fun hc => Method.noConfusion hc
    rcases List.mem_cons.mp hr2 with rfl | hr3
    · exact fun hc => Method.noConfusion hc
    cases hr3
  · have hw : theWriteRequest remote cfg fp content msg =
        writeRequest cfg fp content msg Method.post := by
      simp [theWriteRequest, probeOk, h]
    rw [ht, hw]
    refine ⟨rfl, ?_⟩
    intro r hr
    rcases List.mem_cons.mp hr with rfl | hr2
    · exact fun hc => Method.noConfusion hc
    rcases List.mem_cons.mp hr2 with rfl | hr3
    · exact fun hc => Method.noConfusion hc
    cases hr3

/-- Witness for C1 at a concrete remote on which the probe returns 200: the
trace is the probe followed by the PUT. -/
theorem commit_probe_decides_action_witness :
    (push_to_gitlab remoteAllOk cfgW "scripts/x.sas" "data" "msg").2 =
      [probeRequest cfgW "scripts/x.sas" "main",
        writeRequest cfgW "scripts/x.sas" "data" "msg" Method.put] :=
  ((commit_probe_decides_action remoteAllOk cfgW "scripts/x.sas" "data" "msg").2.1
    rfl).1

/-- C2: file_exists issues the existence probe at the given path and branch
and returns exactly whether the status code is the success status 200; every
non-success status, not-found included, yields false. -/
theorem file_exists_success_status (remote : Remote) (cfg : Config)
    (fp branch : String) :
    ((file_exists remote cfg fp branch).1 = true ↔
        (remote (probeRequest cfg fp branch)).status_code = 200) ∧
      (file_exists remote cfg fp branch).2 = [probeRequest cfg fp branch] := by
  constructor
  · simp [file_exists]
  · rfl

/-- Witness for C2 at a concrete remote whose probe returns 200. -/
theorem file_exists_success_status_witness :
    (file_exists remoteAllOk cfgW "scripts/x.sas" "main").1 = true :=
  (file_exists_success_status remoteAllOk cfgW "scripts/x.sas" "main").1.mpr rfl

/-- C4: when no loaded record has the requested job_id, get_job_by_id raises
the 404 not-found HTTPException. -/
theorem get_job_by_id_not_found (cfg : Config) (jobs : List Job) (job_id : String)
    (h : ∀ job ∈ jobs, dictGet job "job_id" ≠ some job_id) :
    get_job_by_id cfg jobs job_id =
      PyResult.httpError 404 ("Job " ++ sq ++ job_id ++ sq ++ " not found") := by
  induction jobs with
  | nil => rfl
  | cons job rest ih =>
    simp only [get_job_by_id]
    rw [if_neg (h job (List.mem_cons_self job rest))]
    exact ih fun j hj => h j (List.mem_cons_of_mem job hj)

/-- Witness for C4: the one-record backing file has no job zz. -/
theorem get_job_by_id_not_found_witness :
    get_job_by_id cfgW jobsW "zz" =
      PyResult.httpError 404 ("Job " ++ sq ++ "zz" ++ sq ++ " not found") :=
  get_job_by_id_not_found cfgW jobsW "zz" (by decide)

/-- C6: when the create/update call returns a status outside [200, 201],
push_to_gitlab raises an HTTPException carrying exactly the status code and
the response body that the remote returned for that call. -/
theorem commit_remote_failure_surfaced (remote : Remote) (cfg : Config)
    (fp content msg : String)
    (h : ([200, 201].contains
        (remote (theWriteRequest remote cfg fp content msg)).status_code) = false) :
    (push_to_gitlab remote cfg fp content msg).1 =
      PyResult.httpError
        (remote (theWriteRequest remote cfg fp content msg)).status_code
        (remote (theWriteRequest remote cfg fp content msg)).text :=
  push_to_gitlab_result_err remote cfg fp content msg h

/-- Witness for C6: a remote that denies the create call with 403 and body
forbidden surfaces exactly that pair. -/
theorem commit_remote_failure_surfaced_witness :
    (push_to_gitlab remoteAbsentThenDenied cfgW "scripts/x.sas" "data" "msg").1 =
      PyResult.httpError 403 "forbidden" := by
  have h := commit_remote_failure_surfaced remoteAbsentThenDenied cfgW "scripts/x.sas"
    "data" "msg" (by decide)
  exact h.trans (by decide)

/-- C7: a job record returned by get_job_by_id carries a file_raw_url equal to
the base API URL, the percent-encoded project path, the percent-encoded
script_path of the record and the fixed branch reference main. -/
theorem get_job_raw_url (cfg : Config) (jobs : List Job) (job_id : String) (j : Job)
    (sp : String)
    (hget : get_job_by_id cfg jobs job_id = PyResult.ok j)
    (hsp : dictGet j "script_path" = some sp) :
    dictGet j "file_raw_url" = some (file_raw_url cfg sp) := by
  induction jobs with
  | nil => cases hget
  | cons job rest ih =>
    simp only [get_job_by_id] at hget
    by_cases hm : dictGet job "job_id" = some job_id
    · rw [if_pos hm] at hget
      cases hsp0 : dictGet job "script_path" with
      | none => simp [addRawUrl, hsp0] at hget
      | some sp0 =>
        simp only [addRawUrl, hsp0, PyResult.ok.injEq] at hget
        subst hget
        rw [dictGet_dictSet_other job "file_raw_url" "script_path" _ (by decide)] at hsp
        rw [hsp0] at hsp
        injection hsp with he
        rw [dictGet_dictSet_self, he]
    · rw [if_neg hm] at hget
      exact ih hget

/-- Witness for C7 on the example record of the specification: the raw URL
ends in the percent-encoded script path followed by raw?ref=main. -/
theorem get_job_raw_url_witness :
    dictGet jobOutW "file_raw_url" =
      some ("https://gitlab.example/api/v4/projects/group%2Fproj/repository/files/" ++
        "scripts%2Fx.sas/raw?ref=main") := by
  have h := get_job_raw_url cfgW jobsW "a1" jobOutW "scripts/x.sas" rfl rfl
  exact h.trans (by decide)

/-- C8: the lookup returns the first record in file order whose job_id
matches, even when later records carry the same job_id. -/
theorem get_job_by_id_first_match (cfg : Config) (pre post : List Job) (job : Job)
    (job_id : String)
    (hpre : ∀ j ∈ pre, dictGet j "job_id" ≠ some job_id)
    (hj : dictGet job "job_id" = some job_id) :
    get_job_by_id cfg (pre ++ job :: post) job_id = addRawUrl cfg job := by
  induction pre with
  | nil =>
    rw [List.nil_append]
    simp only [get_job_by_id]
    rw [if_pos hj]
  | cons p rest ih =>
    rw [List.cons_append]
    simp only [get_job_by_id]
    rw [if_neg (hpre p (List.mem_cons_self p rest))]
    exact ih fun j hj2 => hpre j (List.mem_cons_of_mem p hj2)

/-- Witness for C8 on a backing file with two records sharing job_id a1: the
first one, x.sas, is returned. -/
theorem get_job_by_id_first_match_witness :
    get_job_by_id cfgW [jobRecW, jobRecW2] "a1" = addRawUrl cfgW jobRecW := by
  have h := get_job_by_id_first_match cfgW [] [jobRecW2] jobRecW "a1"
    (by simp) (by decide)
  exact h

/-- C3: on a known job and a request body with a non-empty content string,
when the create/update call returns a success status, the commit route
returns the dict with the job_id of the record, file_path equal to
sas/optimized/ followed by the script name, action updated or created
according to the existence probe, and the success status string. -/
theorem commit_job_success_shape (remote : Remote) (cfg : Config) (jobs : List Job)
    (job_id : String) (payload : Job) (job : Job) (sn c jid : String)
    (hjob : get_job_by_id cfg jobs job_id = PyResult.ok job)
    (hsn : dictGet job "script_name" = some sn)
    (hjid : dictGet job "job_id" = some jid)
    (hc : dictGet payload "content" = some c)
    (hne : c ≠ "")
    (hok : ([200, 201].contains
        (remote (theWriteRequest remote cfg ("sas/optimized/" ++ sn) c
          ((dictGet payload "commit_message").getD
            ("Commit job logs for " ++ sn)))).status_code) = true) :
    (commit_job remote cfg jobs job_id payload).1 =
      PyResult.ok [("job_id", jid),
        ("file_path", "sas/optimized/" ++ sn),
        ("action",
          if probeOk remote cfg ("sas/optimized/" ++ sn) then "updated" else "created"),
        ("status", "✅ success")] := by
  have hpush := push_to_gitlab_result_ok remote cfg ("sas/optimized/" ++ sn) c
    ((dictGet payload "commit_message").getD ("Commit job logs for " ++ sn)) hok
  simp only [commit_job, hjob, hc, hsn]
  rw [if_neg hne]
  rcases hp : push_to_gitlab remote cfg ("sas/optimized/" ++ sn) c
      ((dictGet payload "commit_message").getD ("Commit job logs for " ++ sn))
    with ⟨res, trace⟩
  rw [hp] at hpush
  have hres : res = PyResult.ok ⟨"success",
      if probeOk remote cfg ("sas/optimized/" ++ sn) then "updated" else "created",
      "sas/optimized/" ++ sn⟩ := hpush
  subst hres
  simp [hjid]

/-- Witness for C3 on the example of the specification: content data, probe
not-found, so the file is created at sas/optimized/x.sas. -/
theorem commit_job_success_shape_witness :
    (commit_job remoteAbsentThenCreated cfgW jobsW "a1" [("content", "data")]).1 =
      PyResult.ok [("job_id", "a1"), ("file_path", "sas/optimized/x.sas"),
        ("action", "created"), ("status", "✅ success")] := by
  have h := commit_job_success_shape remoteAbsentThenCreated cfgW jobsW "a1"
    [("content", "data")] jobOutW "x.sas" "data" "a1" (by decide) (by decide)
    (by decide) (by decide) (by decide) (by decide)
  exact h.trans (by decide)

/-- C5 counterexample: with a request body lacking content and a job_id that
matches no record, the commit route returns 404, not 400; the route resolves
the job before looking at the body. -/
theorem commit_missing_content_unknown_job_404 :
    (commit_job remoteAllOk cfgW [] "a1" []).1 =
        PyResult.httpError 404 ("Job " ++ sq ++ "a1" ++ sq ++ " not found") ∧
      (commit_job remoteAllOk cfgW [] "a1" []).1 ≠
        PyResult.httpError 400 missingContentDetail :=
  ⟨rfl, by decide⟩

/-- C5 amended: on a job_id that matches a record, a request body without a
content field yields 400 with the missing-content detail and no remote
request at all. -/
theorem commit_missing_content_400_no_remote_call (remote : Remote) (cfg : Config)
    (jobs : List Job) (job_id : String) (payload : Job) (job : Job)
    (hjob : get_job_by_id cfg jobs job_id = PyResult.ok job)
    (hc : dictGet payload "content" = none) :
    commit_job remote cfg jobs job_id payload =
      (PyResult.httpError 400 missingContentDetail, []) := by
  simp only [commit_job, hjob, hc]

/-- Witness for the amended C5 on the example record. -/
theorem commit_missing_content_400_no_remote_call_witness :
    commit_job remoteAllOk cfgW jobsW "a1" [("commit_message", "m")] =
      (PyResult.httpError 400 missingContentDetail, []) :=
  commit_missing_content_400_no_remote_call remoteAllOk cfgW jobsW "a1"
    [("commit_message", "m")] jobOutW (by decide) (by decide)

/-- C9: on a known job, a content field that is present but equal to the
empty string is rejected exactly like a missing one: same 400, same detail,
no remote request, and the same outcome as an empty request body. -/
theorem commit_empty_content_like_missing (remote : Remote) (cfg : Config)
    (jobs : List Job) (job_id : String) (payload : Job) (job : Job)
    (hjob : get_job_by_id cfg jobs job_id = PyResult.ok job)
    (hc : dictGet payload "content" = some "") :
    commit_job remote cfg jobs job_id payload =
        (PyResult.httpError 400 missingContentDetail, []) ∧
      commit_job remote cfg jobs job_id payload =
        commit_job remote cfg jobs job_id [] := by
  have h1 : commit_job remote cfg jobs job_id payload =
      (PyResult.httpError 400 missingContentDetail, []) := by
    simp [commit_job, hjob, hc]
  have h2 : commit_job remote cfg jobs job_id [] =
      (PyResult.httpError 400 missingContentDetail, []) := by
    simp [commit_job, hjob, dictGet]
  exact ⟨h1, h1.trans h2.symm⟩

/-- Witness for C9 on the example record with empty content. -/
theorem commit_empty_content_like_missing_witness :
    commit_job remoteAllOk cfgW jobsW "a1" [("content", "")] =
      (PyResult.httpError 400 missingContentDetail, []) :=
  (commit_empty_content_like_missing remoteAllOk cfgW jobsW "a1" [("content", "")]
    jobOutW (by decide) (by decide)).1

/-- C10 counterexample: a backing file that parses to a JSON array is a
successful parse, yet list_jobs takes the 500 load-error path, because the
jobs lookup on a non-object raises inside the same try block. -/
theorem list_jobs_nonobject_500 :
    list_jobs (Except.ok (Json.arr [])) =
        PyResult.httpError 500 ("Error loading jobs: " ++ sq ++ "list" ++ sq ++
          " object has no attribute " ++ sq ++ "get" ++ sq) ∧
      list_jobs (Except.ok (Json.arr [])) ≠ PyResult.ok (Json.arr []) :=
  ⟨rfl, fun h => PyResult.noConfusion h⟩

/-- C10 amended main clause: a backing file parsed to a JSON object without a
top-level jobs key yields the empty list successfully. -/
theorem list_jobs_missing_jobs_key (fields : List (String × Json))
    (h : objGet fields "jobs" = none) :
    list_jobs (Except.ok (Json.obj fields)) = PyResult.ok (Json.arr []) := by
  simp only [list_jobs, load_jobs, h]
  rfl

/-- Witness for the amended C10 on a one-field object without a jobs key. -/
theorem list_jobs_missing_jobs_key_witness :
    list_jobs (Except.ok (Json.obj [("name", Json.str "x")])) =
      PyResult.ok (Json.arr []) :=
  list_jobs_missing_jobs_key [("name", Json.str "x")] rfl

end GitLabJobManager
